import Mathlib

/-!
Shallow embedding of the optimint RPC client core (`rpc/client/client.go`)
and the DA backend registry (`da/registry/registry.go`), together with
theorems settling the specification claims about pagination, search-result
sorting, the three broadcast modes, subscription admission, the
resubscription backoff loop, and registry lookup.

Go machine integers are modelled as `Int` with Go's truncating division
(`Int.tdiv`); opaque external hashes are modelled as deterministic
functions of the transaction bytes; external collaborators (mempool,
event bus, gossip layer, tx indexer) are modelled as environments giving
their observable outcomes, and the functions under test return both their
Go results and a trace of the side-effecting calls they made.
-/

deriving instance DecidableEq for Except

namespace Optimint

/-! ## Pagination (`validatePerPage`, `validatePage`, `validateSkipCount`) -/

def defaultPerPage : Int := 30

def maxPerPage : Int := 100

/-- `validatePerPage(perPagePtr *int) int`: nil → default 30; below 1 → 30;
above 100 → 100; otherwise the supplied value. -/
def validatePerPage : Option Int → Int
  | none => defaultPerPage
  | some perPage =>
    if perPage < 1 then defaultPerPage
    else if perPage > maxPerPage then maxPerPage
    else perPage

inductive PageError where
  /-- Go `panic("zero or negative perPage")` in `validatePage`. -/
  | panicBadPerPage (perPage : Int)
  /-- Go `fmt.Errorf("page should be within [1, %d] range, given %d", pages, page)`. -/
  | outOfRange (pages page : Int)
deriving DecidableEq, Repr

/-- The `pages := ((totalCount - 1) / perPage) + 1; if pages == 0 { pages = 1 }`
computation inside `validatePage`, with Go's truncating integer division. -/
def computePages (totalCount perPage : Int) : Int :=
  let pages := Int.tdiv (totalCount - 1) perPage + 1
  if pages = 0 then 1 else pages

/-- `validatePage(pagePtr *int, perPage, totalCount int) (int, error)`. -/
def validatePage (pagePtr : Option Int) (perPage totalCount : Int) :
    Except PageError Int :=
  if perPage < 1 then .error (.panicBadPerPage perPage)
  else
    match pagePtr with
    | none => .ok 1
    | some page =>
      let pages := computePages totalCount perPage
      if page ≤ 0 ∨ page > pages then .error (.outOfRange pages page)
      else .ok page

/-- `validateSkipCount(page, perPage int) int`. -/
def validateSkipCount (page perPage : Int) : Int :=
  let skipCount := (page - 1) * perPage
  if skipCount < 0 then 0 else skipCount

/-- `tmmath.MinInt`. -/
def tmMinInt (a b : Int) : Int := if a < b then a else b

/-! ## Search hits and sorting (`TxSearch`) -/

/-- One hit from the tx indexer (`abci.TxResult`): block height, index within
the block, raw transaction bytes and the execution result (abstracted to a
tag, its contents are opaque to the sorting and pagination logic). -/
structure TxResult where
  Height : Int
  Index : Nat
  Tx : List Nat
  Result : Nat
deriving DecidableEq, Repr

/-- `types.Tx.Hash()`: an opaque deterministic content hash of the
transaction bytes, modelled by the identity on the byte list (only
determinism in the bytes is relevant to the claims). -/
def txHash (tx : List Nat) : List Nat := tx

/-- `mempool.TxKey(tx)`: the opaque content-derived mempool key, modelled,
like `txHash`, by the identity on the byte list. -/
def TxKey (tx : List Nat) : List Nat := tx

/-- `types.TxProof`: opaque; only its Go zero value matters here. -/
structure TxProof where
  data : List Nat
deriving DecidableEq, Repr

/-- The Go zero value `types.TxProof{}` of the `proof` variable. -/
def TxProof.zero : TxProof := ⟨[]⟩

/-- `ctypes.ResultTx` as populated by `TxSearch`. -/
structure ResultTx where
  Hash : List Nat
  Height : Int
  Index : Nat
  TxResult : Nat
  Tx : List Nat
  Proof : TxProof
deriving DecidableEq, Repr

/-- Total preorder on hits realised by the ascending `sort.Slice` comparator
(`Height` primary, `Index` tie-break): `a` may precede `b` iff the Go
`less(b, a)` is false. -/
def ascLe (a b : TxResult) : Prop :=
  a.Height < b.Height ∨ (a.Height = b.Height ∧ a.Index ≤ b.Index)

/-- Total preorder realised by the descending `sort.Slice` comparator. -/
def descLe (a b : TxResult) : Prop :=
  b.Height < a.Height ∨ (a.Height = b.Height ∧ b.Index ≤ a.Index)

instance : DecidableRel ascLe := fun a b => by
  unfold ascLe; infer_instance

instance : DecidableRel descLe := fun a b => by
  unfold descLe; infer_instance

instance : IsTotal TxResult ascLe := by
  constructor; intro a b; unfold ascLe; omega

instance : IsTrans TxResult ascLe := by
  constructor; intro a b c; unfold ascLe; omega

instance : IsTotal TxResult descLe := by
  constructor; intro a b; unfold descLe; omega

instance : IsTrans TxResult descLe := by
  constructor; intro a b c; unfold descLe; omega

inductive TxSearchError where
  /-- Go `errors.New("expected order_by to be either asc or desc or empty")`. -/
  | invalidOrderBy
  | page (e : PageError)
deriving DecidableEq, Repr

/-- The `switch orderBy` sorting step of `TxSearch`: Go's `sort.Slice` with
the comparator from the source, modelled as a comparison sort (insertion
sort) over the induced total preorder. -/
def sortResults (orderBy : String) (results : List TxResult) :
    Except TxSearchError (List TxResult) :=
  if orderBy = "desc" then .ok (List.insertionSort descLe results)
  else if orderBy = "asc" ∨ orderBy = "" then .ok (List.insertionSort ascLe results)
  else .error .invalidOrderBy

/-- Conversion of one sorted hit into an API result: the `apiResults` append
in the pagination loop. The commented-out `prove` block in the source leaves
`proof` at its zero value always. -/
def toResultTx (r : TxResult) : ResultTx :=
  { Hash := txHash r.Tx
    Height := r.Height
    Index := r.Index
    TxResult := r.Result
    Tx := r.Tx
    Proof := TxProof.zero }

/-- The pagination tail of `TxSearch` applied to the already-sorted results:
per-page and page validation, skip count, the
`for i := skipCount; i < skipCount+pageSize; i++` window, and the total
count. -/
def paginate (sorted : List TxResult) (pagePtr perPagePtr : Option Int) :
    Except PageError (List ResultTx × Int) :=
  let totalCount : Int := sorted.length
  let perPage := validatePerPage perPagePtr
  match validatePage pagePtr perPage totalCount with
  | .error e => .error e
  | .ok page =>
    let skipCount := validateSkipCount page perPage
    let pageSize := tmMinInt perPage (totalCount - skipCount)
    let window := (sorted.drop skipCount.toNat).take pageSize.toNat
    .ok (window.map toResultTx, totalCount)

/-- `TxSearch` after the indexer returned `results`: sort (before any
pagination), then paginate. The `prove` flag is accepted but, as in the
source, never consulted. -/
def TxSearch (results : List TxResult) (orderBy : String)
    (pagePtr perPagePtr : Option Int) (prove : Bool) :
    Except TxSearchError (List ResultTx × Int) :=
  match sortResults orderBy results with
  | .error e => .error e
  | .ok sorted =>
    match paginate sorted pagePtr perPagePtr with
    | .error e => .error (.page e)
    | .ok out => .ok out

/-! ## Broadcast modes (`BroadcastTxCommit`, `BroadcastTxSync`) -/

/-- `abci.ResponseCheckTx` (the fields the client reads). `Code = 0` is
`abci.CodeTypeOK`. -/
structure ResponseCheckTx where
  Code : Nat
  Data : List Nat
  Log : String
  Codespace : String
deriving DecidableEq, Repr

def CodeTypeOK : Nat := 0

/-- `abci.ResponseDeliverTx` (abstracted: code plus an opaque payload tag). -/
structure ResponseDeliverTx where
  Code : Nat
  Data : List Nat
deriving DecidableEq, Repr

/-- The Go zero value `abci.ResponseDeliverTx{}`. -/
def emptyDeliverTx : ResponseDeliverTx := ⟨0, []⟩

/-- Outcome of the three-way `select` at the end of `BroadcastTxCommit`:
an inclusion event on `deliverTxSub.Out()`, a cancellation of the
subscription (carrying `sub.Err()`, `none` when the bus reports no error),
or the `TimeoutBroadcastTxCommit` timer firing first. -/
inductive WaitOutcome where
  | deliver (result : ResponseDeliverTx) (height : Int)
  | cancelled (busErr : Option String)
  | timeout
deriving DecidableEq, Repr

/-- Observable behaviour of the external collaborators during one
`BroadcastTxCommit` call: the event-bus admission counters and configured
maxima, the outcome of `EventBus.Subscribe`, of the `Mempool.CheckTx`
submission call, the CheckTx response delivered on the callback channel,
the outcome of `P2P.GossipTx`, and which arm of the final `select` fires. -/
structure CommitEnv where
  numClients : Int
  numClientSubscriptions : Int
  maxSubscriptionClients : Int
  maxSubscriptionsPerClient : Int
  subscribeErr : Option String
  checkTxErr : Option String
  checkTxResponse : ResponseCheckTx
  gossipErr : Option String
  waitOutcome : WaitOutcome
deriving DecidableEq, Repr

inductive CommitError where
  /-- `fmt.Errorf("max_subscription_clients %d reached", max)`. -/
  | maxSubscriptionClients (max : Int)
  /-- `fmt.Errorf("max_subscriptions_per_client %d reached", max)`. -/
  | maxSubscriptionsPerClient (max : Int)
  /-- `fmt.Errorf("failed to subscribe to tx: %w", err)`. -/
  | subscribeFailed (msg : String)
  /-- `fmt.Errorf("error on broadcastTxCommit: %v", err)` (CheckTx submission). -/
  | checkTxSubmitFailed (msg : String)
  /-- `fmt.Errorf("tx added to local mempool but failure to broadcast: %w", err)`. -/
  | broadcastFailed (msg : String)
  /-- `fmt.Errorf("deliverTxSub was cancelled (reason: %s)", reason)`. -/
  | cancelled (reason : String)
  /-- `errors.New("timed out waiting for tx to be included in a block")`. -/
  | timedOut
deriving DecidableEq, Repr

/-- `ctypes.ResultBroadcastTxCommit`. An omitted `Height` in a Go composite
literal is the zero value 0. -/
structure ResultBroadcastTxCommit where
  CheckTx : ResponseCheckTx
  DeliverTx : ResponseDeliverTx
  Hash : List Nat
  Height : Int
deriving DecidableEq, Repr

/-- Result of one `BroadcastTxCommit` call: the returned value and error,
plus a trace of the externally observable calls made (bus registration,
gossip attempt, and whether the deferred `Unsubscribe` ran). -/
structure CommitOutput where
  result : Option ResultBroadcastTxCommit
  error : Option CommitError
  busSubscribed : Bool
  gossipCalled : Bool
  unsubscribed : Bool
deriving DecidableEq, Repr

/-- `BroadcastTxCommit(ctx, tx)`, control flow transcribed from the source:
admission checks against the event-bus counters, subscribe (with the
deferred unsubscribe armed from then on), CheckTx submission and wait,
early return on non-OK code, gossip, then the three-way wait. -/
def BroadcastTxCommit (env : CommitEnv) (tx : List Nat) : CommitOutput :=
  if env.numClients ≥ env.maxSubscriptionClients then
    ⟨none, some (.maxSubscriptionClients env.maxSubscriptionClients),
      false, false, false⟩
  else if env.numClientSubscriptions ≥ env.maxSubscriptionsPerClient then
    ⟨none, some (.maxSubscriptionsPerClient env.maxSubscriptionsPerClient),
      false, false, false⟩
  else
    match env.subscribeErr with
    | some msg => ⟨none, some (.subscribeFailed msg), false, false, false⟩
    | none =>
      match env.checkTxErr with
      | some msg => ⟨none, some (.checkTxSubmitFailed msg), true, false, true⟩
      | none =>
        let checkTxRes := env.checkTxResponse
        if checkTxRes.Code ≠ CodeTypeOK then
          ⟨some ⟨checkTxRes, emptyDeliverTx, txHash tx, 0⟩, none,
            true, false, true⟩
        else
          match env.gossipErr with
          | some msg => ⟨none, some (.broadcastFailed msg), true, true, true⟩
          | none =>
            match env.waitOutcome with
            | .deliver res h =>
              ⟨some ⟨checkTxRes, res, txHash tx, h⟩, none, true, true, true⟩
            | .cancelled busErr =>
              let reason := match busErr with
                | none => "Tendermint exited"
                | some e => e
              ⟨some ⟨checkTxRes, emptyDeliverTx, txHash tx, 0⟩,
                some (.cancelled reason), true, true, true⟩
            | .timeout =>
              ⟨some ⟨checkTxRes, emptyDeliverTx, txHash tx, 0⟩,
                some .timedOut, true, true, true⟩

/-- Environment for one `BroadcastTxSync` call. -/
structure SyncEnv where
  checkTxErr : Option String
  checkTxResponse : ResponseCheckTx
  gossipErr : Option String
deriving DecidableEq, Repr

inductive SyncError where
  /-- Error returned by the `Mempool.CheckTx` submission call itself. -/
  | checkTxSubmitFailed (msg : String)
  /-- `fmt.Errorf("valid tra: %w", err)` — gossip failure after acceptance. -/
  | gossipFailed (msg : String)
deriving DecidableEq, Repr

/-- `ctypes.ResultBroadcastTx`. -/
structure ResultBroadcastTx where
  Code : Nat
  Data : List Nat
  Log : String
  Codespace : String
  Hash : List Nat
deriving DecidableEq, Repr

/-- Result of one `BroadcastTxSync` call, with a trace of the gossip attempt
and of the `Mempool.RemoveTxByKey` rollback (the key removed, when one is). -/
structure SyncOutput where
  result : Option ResultBroadcastTx
  error : Option SyncError
  gossipCalled : Bool
  removedKey : Option (List Nat)
deriving DecidableEq, Repr

/-- `BroadcastTxSync(ctx, tx)`: submit, wait for the CheckTx response, gossip
only on OK code; on gossip failure remove the tx from the mempool by
`mempool.TxKey(tx)` and return the error. -/
def BroadcastTxSync (env : SyncEnv) (tx : List Nat) : SyncOutput :=
  match env.checkTxErr with
  | some msg => ⟨none, some (.checkTxSubmitFailed msg), false, none⟩
  | none =>
    let r := env.checkTxResponse
    if r.Code = CodeTypeOK then
      match env.gossipErr with
      | some msg => ⟨none, some (.gossipFailed msg), true, some (TxKey tx)⟩
      | none =>
        ⟨some ⟨r.Code, r.Data, r.Log, r.Codespace, txHash tx⟩, none, true, none⟩
    else
      ⟨some ⟨r.Code, r.Data, r.Log, r.Codespace, txHash tx⟩, none, false, none⟩

/-! ## `Subscribe` and the resubscription backoff loop -/

/-- Environment for one `Client.Subscribe` call: the same event-bus counters
and maxima visible to `BroadcastTxCommit` (so admission conditions can be
stated), the query-parse outcome and the bus registration outcome. -/
structure SubscribeEnv where
  numClients : Int
  numClientSubscriptions : Int
  maxSubscriptionClients : Int
  maxSubscriptionsPerClient : Int
  parseErr : Option String
  busSubscribeErr : Option String
deriving DecidableEq, Repr

inductive SubscribeError where
  /-- `fmt.Errorf("failed to parse query: %w", err)`. -/
  | parseFailed (msg : String)
  /-- `fmt.Errorf("failed to subscribe: %w", err)`. -/
  | subscribeFailed (msg : String)
deriving DecidableEq, Repr

/-- Result of one `Client.Subscribe` call: whether an output channel was
returned, the error, whether a bus registration happened (a successful
`EventBus.Subscribe`/`SubscribeUnbuffered`), and the channel capacity used. -/
structure SubscribeOutput where
  channelReturned : Bool
  error : Option SubscribeError
  busRegistered : Bool
  outCap : Int
deriving DecidableEq, Repr

/-- `Client.Subscribe(ctx, subscriber, query, outCapacity...)`: parse the
query, default the capacity to 1, register on the bus (buffered or
unbuffered), spawn the forwarder. The source performs no admission check
here; the counters in the environment are never consulted. -/
def ClientSubscribe (env : SubscribeEnv) (outCapacity : List Int) :
    SubscribeOutput :=
  match env.parseErr with
  | some msg => ⟨false, some (.parseFailed msg), false, 0⟩
  | none =>
    let outCap := match outCapacity with
      | [] => 1
      | c :: _ => c
    match env.busSubscribeErr with
    | some msg => ⟨false, some (.subscribeFailed msg), false, outCap⟩
    | none => ⟨true, none, true, outCap⟩

/-- The sleep executed by `resubscribe` after its `attempts`-th failed
`EventBus.Subscribe` call: Go `(10 << uint(attempts)) * time.Millisecond`
with `attempts` already incremented to the number of failures so far,
in milliseconds. -/
def resubscribeSleepMs (attempts : Nat) : Nat := 10 <<< attempts

/-- The sequence of sleeps the `resubscribe` loop performs, given the
success/failure of each successive `EventBus.Subscribe` attempt made while
the client is still running (`true` = subscribe succeeded, ending the
loop). `attempts` is the loop counter, 0 at entry. -/
def resubscribeSleeps (attempts : Nat) : List Bool → List Nat
  | [] => []
  | ok :: rest =>
    if ok then []
    else resubscribeSleepMs (attempts + 1) :: resubscribeSleeps (attempts + 1) rest

/-! ## DA backend registry (`da/registry/registry.go`) -/

/-- A DA backend instance; the capability set is opaque here, an instance is
identified by which factory built it. -/
structure DataAvailabilityLayerClient where
  impl : String
deriving DecidableEq, Repr

/-- The package-level `clients` map: name → factory. A Go map lookup at a
missing key yields the zero value of the value type — for a function type,
`nil`. -/
def clients (name : String) : Option (Unit → DataAvailabilityLayerClient) :=
  if name = "mock" then some (fun _ => ⟨"mock"⟩)
  else if name = "grpc" then some (fun _ => ⟨"grpc"⟩)
  else none

/-- `GetClient(name)` is `return clients[name]()`: for a registered name this
calls the factory; for an unregistered name it calls the `nil` function and
panics at runtime — modelled as `none`. No error value is ever returned
(the Go signature has no error result). -/
def GetClient (name : String) : Option DataAvailabilityLayerClient :=
  match clients name with
  | some factory => some (factory ())
  | none => none

/-! ## Helper lemmas -/

theorem validatePerPage_bounds (perPagePtr : Option Int) :
    1 ≤ validatePerPage perPagePtr ∧ validatePerPage perPagePtr ≤ 100 := by
  cases perPagePtr with
  | none => constructor <;> norm_num [validatePerPage, defaultPerPage]
  | some v =>
    simp only [validatePerPage, defaultPerPage, maxPerPage]
    split_ifs <;> omega

theorem computePages_zero {perPage : Int} (hp : 1 ≤ perPage) :
    computePages 0 perPage = 1 := by
  unfold computePages
  by_cases hp1 : perPage = 1
  · subst hp1; decide
  · have h2 : Int.tdiv (1 : Int) perPage = 0 :=
      Int.tdiv_eq_zero_of_lt (by norm_num) (by omega)
    have h : Int.tdiv (-(1 : Int)) perPage = -(Int.tdiv 1 perPage) :=
      Int.neg_tdiv 1 perPage
    have hd : Int.tdiv ((0 : Int) - 1) perPage = 0 := by
      rw [show ((0 : Int) - 1) = -1 by norm_num, h, h2]; norm_num
    rw [hd]
    norm_num

theorem computePages_pos {totalCount perPage : Int} (ht : 0 ≤ totalCount)
    (hp : 1 ≤ perPage) : 1 ≤ computePages totalCount perPage := by
  by_cases h1 : 1 ≤ totalCount
  · unfold computePages
    dsimp only
    have hd : 0 ≤ Int.tdiv (totalCount - 1) perPage :=
      Int.tdiv_nonneg (by omega) (by omega)
    split_ifs <;> omega
  · have h0 : totalCount = 0 := by omega
    rw [h0, computePages_zero hp]

theorem validateSkipCount_nonneg (page perPage : Int) :
    0 ≤ validateSkipCount page perPage := by
  unfold validateSkipCount
  dsimp only
  split_ifs <;> omega

/-! ## Claim theorems -/

/-- C9: for every caller-supplied pagination input, the effective per-page
value lies within [1,100] (absent or non-positive input yields the default
30, input above 100 yields 100), the computed total pages is at least 1
even when the total item count is 0, and the skip count is never
negative. -/
theorem pagination_invariants (perPagePtr : Option Int)
    (page perPage totalCount : Int) :
    (1 ≤ validatePerPage perPagePtr ∧ validatePerPage perPagePtr ≤ 100)
    ∧ (perPagePtr = none → validatePerPage perPagePtr = 30)
    ∧ (∀ v, perPagePtr = some v → v < 1 → validatePerPage perPagePtr = 30)
    ∧ (∀ v, perPagePtr = some v → v > 100 → validatePerPage perPagePtr = 100)
    ∧ (0 ≤ totalCount → 1 ≤ perPage → 1 ≤ computePages totalCount perPage)
    ∧ 0 ≤ validateSkipCount page perPage := by
  refine ⟨validatePerPage_bounds perPagePtr, ?_, ?_, ?_, ?_,
    validateSkipCount_nonneg page perPage⟩
  · rintro rfl; rfl
  · rintro v rfl hv
    simp only [validatePerPage, defaultPerPage, maxPerPage]
    split_ifs <;> omega
  · rintro v rfl hv
    simp only [validatePerPage, defaultPerPage, maxPerPage]
    split_ifs <;> omega
  · exact fun ht hp => computePages_pos ht hp

/-- C9 witness: the invariants instantiated at a concrete input, with the
inner hypotheses discharged (per-page request 250 is clamped to 100; total
pages at total 0 and per-page 30 is still at least 1; skip is nonnegative). -/
theorem pagination_invariants_witness :
    validatePerPage (some 250) = 100
    ∧ 1 ≤ computePages 0 30
    ∧ (0 : Int) ≤ validateSkipCount 2 30 :=
  ⟨(pagination_invariants (some 250) 2 30 0).2.2.2.1 250 rfl (by norm_num),
   (pagination_invariants (some 250) 2 30 0).2.2.2.2.1 (by norm_num) (by norm_num),
   (pagination_invariants (some 250) 2 30 0).2.2.2.2.2⟩

/-- C3 counterexample: with a total item count of 0 the operation does NOT
succeed regardless of the requested page — an explicit requested page of 2
(per-page 30) is rejected with a range error instead of succeeding with
page 1. -/
theorem txSearch_total_zero_cex :
    TxSearch [] "asc" (some 2) (some 30) false
      = .error (.page (.outOfRange 1 2)) := by decide

/-- C3 (amended): for a pagination request whose total item count is 0 and
whose requested page is absent or 1, the operation succeeds with effective
page 1, total pages 1, skip count 0 and returned slice length 0, for every
per-page value; an explicit requested page outside [1,1] is instead
rejected with a range error. -/
theorem txSearch_total_zero (perPagePtr pagePtr : Option Int)
    (orderBy : String) (prove : Bool)
    (hpage : pagePtr = none ∨ pagePtr = some 1)
    (horder : orderBy = "" ∨ orderBy = "asc" ∨ orderBy = "desc") :
    validatePage pagePtr (validatePerPage perPagePtr) 0 = .ok 1
    ∧ computePages 0 (validatePerPage perPagePtr) = 1
    ∧ validateSkipCount 1 (validatePerPage perPagePtr) = 0
    ∧ TxSearch [] orderBy pagePtr perPagePtr prove = .ok ([], 0) := by
  have hpp1 : 1 ≤ validatePerPage perPagePtr := (validatePerPage_bounds perPagePtr).1
  have hcp : computePages 0 (validatePerPage perPagePtr) = 1 := computePages_zero hpp1
  have hvp : validatePage pagePtr (validatePerPage perPagePtr) 0 = .ok 1 := by
    unfold validatePage
    rw [if_neg (by omega)]
    rcases hpage with rfl | rfl
    · rfl
    · dsimp only
      rw [hcp, if_neg (by norm_num)]
  have hskip : validateSkipCount 1 (validatePerPage perPagePtr) = 0 := by
    unfold validateSkipCount
    norm_num
  have hsort : sortResults orderBy [] = .ok [] := by
    rcases horder with rfl | rfl | rfl <;> rfl
  have hpag : paginate [] pagePtr perPagePtr = .ok ([], 0) := by
    unfold paginate
    simp only [List.length_nil, Nat.cast_zero]
    rw [hvp]
    simp
  refine ⟨hvp, hcp, hskip, ?_⟩
  unfold TxSearch
  rw [hsort]
  dsimp only
  rw [hpag]

/-- C3 witness: the amended claim instantiated at requested page 1,
per-page 7, order token `desc`. -/
theorem txSearch_total_zero_witness :
    validatePage (some 1) (validatePerPage (some 7)) 0 = .ok 1
    ∧ computePages 0 (validatePerPage (some 7)) = 1
    ∧ validateSkipCount 1 (validatePerPage (some 7)) = 0
    ∧ TxSearch [] "desc" (some 1) (some 7) true = .ok ([], 0) :=
  txSearch_total_zero (some 7) (some 1) "desc" true (Or.inr rfl)
    (Or.inr (Or.inr rfl))

/-! ## Sorting of returned hits -/

/-- The ascending sort order, read off the returned API results. -/
def ascLeHit (a b : ResultTx) : Prop :=
  a.Height < b.Height ∨ (a.Height = b.Height ∧ a.Index ≤ b.Index)

/-- The descending sort order, read off the returned API results. -/
def descLeHit (a b : ResultTx) : Prop :=
  b.Height < a.Height ∨ (a.Height = b.Height ∧ b.Index ≤ a.Index)

theorem ascLe_toResultTx {a b : TxResult} (h : ascLe a b) :
    ascLeHit (toResultTx a) (toResultTx b) := by
  simpa [ascLeHit, ascLe, toResultTx] using h

theorem descLe_toResultTx {a b : TxResult} (h : descLe a b) :
    descLeHit (toResultTx a) (toResultTx b) := by
  simpa [descLeHit, descLe, toResultTx] using h

/-- Pagination preserves sortedness: the returned page of an already-sorted
hit list is itself sorted (it is a contiguous window of the sorted list,
mapped field-for-field into API results). -/
theorem paginate_sorted {R : TxResult → TxResult → Prop}
    {S : ResultTx → ResultTx → Prop}
    (hmap : ∀ a b, R a b → S (toResultTx a) (toResultTx b))
    {sorted : List TxResult} (hs : List.Sorted R sorted)
    {pagePtr perPagePtr : Option Int} {out : List ResultTx × Int}
    (h : paginate sorted pagePtr perPagePtr = .ok out) :
    List.Sorted S out.1 := by
  unfold paginate at h
  dsimp only at h
  cases hv : validatePage pagePtr (validatePerPage perPagePtr)
      ((sorted.length : Nat) : Int) with
  | error e => rw [hv] at h; exact absurd h (by simp)
  | ok page =>
    rw [hv] at h
    dsimp only at h
    have hout : out.1 =
        ((sorted.drop (validateSkipCount page (validatePerPage perPagePtr)).toNat).take
          (tmMinInt (validatePerPage perPagePtr)
            (((sorted.length : Nat) : Int) -
              validateSkipCount page (validatePerPage perPagePtr))).toNat).map
          toResultTx := by
      cases h' : out with
      | mk l n =>
        rw [h'] at h
        exact (congrArg Prod.fst (Except.ok.inj h)).symm ▸ rfl
    rw [hout]
    have hsub :
        ((sorted.drop (validateSkipCount page (validatePerPage perPagePtr)).toNat).take
          (tmMinInt (validatePerPage perPagePtr)
            (((sorted.length : Nat) : Int) -
              validateSkipCount page (validatePerPage perPagePtr))).toNat).Sublist
          sorted :=
      (List.take_sublist _ _).trans (List.drop_sublist _ _)
    exact List.Pairwise.map toResultTx hmap (List.Pairwise.sublist hsub hs)

/-- C8: for every `TxSearch` call the hits are sorted with height as primary
key and in-block index as tie-break in the same direction — ascending for
order token `""` or `"asc"`, descending for `"desc"`; any other token yields
a validation error; and sorting is applied strictly before pagination: the
returned page is computed from a fully sorted permutation of the complete
result set. -/
theorem txSearch_sort_spec (results : List TxResult)
    (pagePtr perPagePtr : Option Int) (prove : Bool) (orderBy : String) :
    (¬(orderBy = "" ∨ orderBy = "asc" ∨ orderBy = "desc") →
      TxSearch results orderBy pagePtr perPagePtr prove = .error .invalidOrderBy)
    ∧ ((orderBy = "" ∨ orderBy = "asc") →
      ∀ out, TxSearch results orderBy pagePtr perPagePtr prove = .ok out →
        List.Sorted ascLeHit out.1
        ∧ ∃ sorted, sorted.Perm results ∧ List.Sorted ascLe sorted
            ∧ paginate sorted pagePtr perPagePtr = .ok out)
    ∧ (orderBy = "desc" →
      ∀ out, TxSearch results orderBy pagePtr perPagePtr prove = .ok out →
        List.Sorted descLeHit out.1
        ∧ ∃ sorted, sorted.Perm results ∧ List.Sorted descLe sorted
            ∧ paginate sorted pagePtr perPagePtr = .ok out) := by
  refine ⟨?_, ?_, ?_⟩
  · intro hbad
    unfold TxSearch sortResults
    rw [if_neg (by tauto), if_neg (by tauto)]
  · intro h out hout
    have hs : sortResults orderBy results
        = .ok (List.insertionSort ascLe results) := by
      rcases h with rfl | rfl <;> rfl
    unfold TxSearch at hout
    rw [hs] at hout
    dsimp only at hout
    cases hp : paginate (List.insertionSort ascLe results) pagePtr perPagePtr with
    | error e => rw [hp] at hout; exact absurd hout (by simp)
    | ok out' =>
      rw [hp] at hout
      have : out' = out := Except.ok.inj hout
      subst this
      exact ⟨paginate_sorted (fun a b => ascLe_toResultTx)
          (List.sorted_insertionSort ascLe results) hp,
        List.insertionSort ascLe results, List.perm_insertionSort ascLe results,
        List.sorted_insertionSort ascLe results, hp⟩
  · intro h out hout
    have hs : sortResults orderBy results
        = .ok (List.insertionSort descLe results) := by
      subst h; rfl
    unfold TxSearch at hout
    rw [hs] at hout
    dsimp only at hout
    cases hp : paginate (List.insertionSort descLe results) pagePtr perPagePtr with
    | error e => rw [hp] at hout; exact absurd hout (by simp)
    | ok out' =>
      rw [hp] at hout
      have : out' = out := Except.ok.inj hout
      subst this
      exact ⟨paginate_sorted (fun a b => descLe_toResultTx)
          (List.sorted_insertionSort descLe results) hp,
        List.insertionSort descLe results, List.perm_insertionSort descLe results,
        List.sorted_insertionSort descLe results, hp⟩

/-- C8 witness: hits at heights [5,5,7] with indices [2,1,0], sorted `asc`:
the returned page is sorted (5,1),(5,2),(7,0) and comes from a sorted
permutation of the full result set. -/
theorem txSearch_sort_spec_witness :
    List.Sorted ascLeHit
      [⟨[2], 5, 1, 0, [2], ⟨[]⟩⟩, ⟨[1], 5, 2, 0, [1], ⟨[]⟩⟩,
        ⟨[3], 7, 0, 0, [3], ⟨[]⟩⟩]
    ∧ ∃ sorted,
        sorted.Perm [⟨5, 2, [1], 0⟩, ⟨5, 1, [2], 0⟩, ⟨7, 0, [3], 0⟩]
        ∧ List.Sorted ascLe sorted
        ∧ paginate sorted none none
            = .ok ([⟨[2], 5, 1, 0, [2], ⟨[]⟩⟩, ⟨[1], 5, 2, 0, [1], ⟨[]⟩⟩,
                ⟨[3], 7, 0, 0, [3], ⟨[]⟩⟩], 3) :=
  (txSearch_sort_spec [⟨5, 2, [1], 0⟩, ⟨5, 1, [2], 0⟩, ⟨7, 0, [3], 0⟩]
      none none false "asc").2.1 (Or.inr rfl)
    ([⟨[2], 5, 1, 0, [2], ⟨[]⟩⟩, ⟨[1], 5, 2, 0, [1], ⟨[]⟩⟩,
        ⟨[3], 7, 0, 0, [3], ⟨[]⟩⟩], 3) (by decide)

theorem paginate_proof_zero {sorted : List TxResult}
    {pagePtr perPagePtr : Option Int} {out : List ResultTx × Int}
    (h : paginate sorted pagePtr perPagePtr = .ok out) :
    ∀ r ∈ out.1, r.Proof = TxProof.zero := by
  unfold paginate at h
  dsimp only at h
  cases hv : validatePage pagePtr (validatePerPage perPagePtr)
      ((sorted.length : Nat) : Int) with
  | error e => rw [hv] at h; exact absurd h (by simp)
  | ok page =>
    rw [hv] at h
    dsimp only at h
    have hout : out.1 =
        ((sorted.drop (validateSkipCount page (validatePerPage perPagePtr)).toNat).take
          (tmMinInt (validatePerPage perPagePtr)
            (((sorted.length : Nat) : Int) -
              validateSkipCount page (validatePerPage perPagePtr))).toNat).map
          toResultTx := by
      cases h' : out with
      | mk l n =>
        rw [h'] at h
        exact (congrArg Prod.fst (Except.ok.inj h)).symm ▸ rfl
    intro r hr
    rw [hout] at hr
    obtain ⟨x, _, rfl⟩ := List.mem_map.mp hr
    rfl

/-- C10: for every `TxSearch` call, every returned hit's inclusion proof
field is the zero value, regardless of the `prove` flag (the proving branch
is commented out in the source). -/
theorem txSearch_proof_always_zero (results : List TxResult) (orderBy : String)
    (pagePtr perPagePtr : Option Int) (prove : Bool) (out : List ResultTx × Int)
    (h : TxSearch results orderBy pagePtr perPagePtr prove = .ok out) :
    ∀ r ∈ out.1, r.Proof = TxProof.zero := by
  unfold TxSearch at h
  cases hs : sortResults orderBy results with
  | error e => rw [hs] at h; exact absurd h (by simp)
  | ok sorted =>
    rw [hs] at h
    dsimp only at h
    cases hp : paginate sorted pagePtr perPagePtr with
    | error e => rw [hp] at h; exact absurd h (by simp)
    | ok out' =>
      rw [hp] at h
      have : out' = out := Except.ok.inj h
      subst this
      exact paginate_proof_zero hp

/-- C10 witness: a concrete search with `prove = true` still returns a hit
whose proof field is the zero value. -/
theorem txSearch_proof_always_zero_witness :
    (⟨[9], 4, 0, 0, [9], ⟨[]⟩⟩ : ResultTx).Proof = TxProof.zero :=
  txSearch_proof_always_zero [⟨4, 0, [9], 0⟩] "desc" none none true
    ([⟨[9], 4, 0, 0, [9], ⟨[]⟩⟩], 1) (by decide)
    ⟨[9], 4, 0, 0, [9], ⟨[]⟩⟩ (by decide)

/-- C6: in validate-only mode (`BroadcastTxSync`), whenever validation
returns OK and the subsequent gossip fails, the transaction is removed from
the local mempool by its content-derived key (`mempool.TxKey`) and the call
returns the gossip error with no result. -/
theorem broadcastTxSync_gossip_rollback (env : SyncEnv) (tx : List Nat)
    (msg : String)
    (hsubmit : env.checkTxErr = none)
    (hok : env.checkTxResponse.Code = CodeTypeOK)
    (hgossip : env.gossipErr = some msg) :
    BroadcastTxSync env tx
      = ⟨none, some (.gossipFailed msg), true, some (TxKey tx)⟩ := by
  unfold BroadcastTxSync
  rw [hsubmit]
  dsimp only
  rw [if_pos hok, hgossip]

/-- C6 witness: the rollback at a concrete transaction and environment. -/
theorem broadcastTxSync_gossip_rollback_witness :
    BroadcastTxSync ⟨none, ⟨0, [], "", ""⟩, some "conn reset"⟩ [1, 2]
      = ⟨none, some (.gossipFailed "conn reset"), true, some (TxKey [1, 2])⟩ :=
  broadcastTxSync_gossip_rollback _ _ _ rfl rfl rfl

/-- C7: in validate-and-wait mode (`BroadcastTxCommit`), a transaction whose
mempool validation returns a non-OK status yields, without error, a partial
result whose CheckTx field is the validation response and whose DeliverTx
and Height are the zero values; no gossip is attempted, and the deferred
unsubscribe releases the subscription. -/
theorem broadcastTxCommit_invalid_tx (env : CommitEnv) (tx : List Nat)
    (h1 : ¬ env.numClients ≥ env.maxSubscriptionClients)
    (h2 : ¬ env.numClientSubscriptions ≥ env.maxSubscriptionsPerClient)
    (h3 : env.subscribeErr = none)
    (h4 : env.checkTxErr = none)
    (h5 : env.checkTxResponse.Code ≠ CodeTypeOK) :
    BroadcastTxCommit env tx
      = ⟨some ⟨env.checkTxResponse, emptyDeliverTx, txHash tx, 0⟩, none,
          true, false, true⟩ := by
  unfold BroadcastTxCommit
  rw [if_neg h1, if_neg h2, h3]
  dsimp only
  rw [h4]
  dsimp only
  rw [if_pos h5]

/-- C7 witness: a concrete rejected transaction (CheckTx code 1). -/
theorem broadcastTxCommit_invalid_tx_witness :
    BroadcastTxCommit
        ⟨0, 0, 100, 5, none, none, ⟨1, [7], "bad", "app"⟩, none, .timeout⟩ [3]
      = ⟨some ⟨⟨1, [7], "bad", "app"⟩, emptyDeliverTx, txHash [3], 0⟩, none,
          true, false, true⟩ :=
  broadcastTxCommit_invalid_tx _ _ (by norm_num) (by norm_num) rfl rfl
    (by norm_num [CodeTypeOK])

/-- C1 counterexample: with validation OK and gossip failing,
`BroadcastTxCommit` returns an error together with a `nil` result — the
returned result does NOT carry the CheckTx outcome. -/
theorem broadcastTxCommit_gossip_cex :
    (BroadcastTxCommit
        ⟨0, 0, 100, 5, none, none, ⟨0, [], "", ""⟩, some "no peers", .timeout⟩
        [1]).result = none
    ∧ (BroadcastTxCommit
        ⟨0, 0, 100, 5, none, none, ⟨0, [], "", ""⟩, some "no peers", .timeout⟩
        [1]).error = some (.broadcastFailed "no peers")
    ∧ (⟨0, [], "", ""⟩ : ResponseCheckTx).Code = CodeTypeOK :=
  ⟨rfl, rfl, rfl⟩

/-- C1 (amended): in validate-and-wait mode, for every transaction whose
mempool validation returns OK, if the subsequent gossip fails the call
returns the "tx added to local mempool but failure to broadcast" error with
a `nil` result: the validation outcome is not included in the returned
value. -/
theorem broadcastTxCommit_gossip_failure (env : CommitEnv) (tx : List Nat)
    (msg : String)
    (h1 : ¬ env.numClients ≥ env.maxSubscriptionClients)
    (h2 : ¬ env.numClientSubscriptions ≥ env.maxSubscriptionsPerClient)
    (h3 : env.subscribeErr = none)
    (h4 : env.checkTxErr = none)
    (h5 : env.checkTxResponse.Code = CodeTypeOK)
    (h6 : env.gossipErr = some msg) :
    BroadcastTxCommit env tx
      = ⟨none, some (.broadcastFailed msg), true, true, true⟩ := by
  unfold BroadcastTxCommit
  rw [if_neg h1, if_neg h2, h3]
  dsimp only
  rw [h4]
  dsimp only
  rw [if_neg (fun hne => hne h5), h6]

/-- C1 witness: the amended behaviour at a concrete environment. -/
theorem broadcastTxCommit_gossip_failure_witness :
    BroadcastTxCommit
        ⟨0, 0, 100, 5, none, none, ⟨0, [], "", ""⟩, some "no peers", .timeout⟩
        [1]
      = ⟨none, some (.broadcastFailed "no peers"), true, true, true⟩ :=
  broadcastTxCommit_gossip_failure _ _ _ (by norm_num) (by norm_num) rfl rfl
    rfl rfl

/-- C5 counterexample: `Client.Subscribe` performs no admission check — with
the subscriber count (and the per-subscriber count) already at the
configured maximum of 5, the call still succeeds and registers on the bus,
instead of failing with an admission error. -/
theorem clientSubscribe_no_admission_cex :
    ClientSubscribe ⟨5, 5, 5, 5, none, none⟩ [] = ⟨true, none, true, 1⟩
    ∧ (5 : Int) ≥ 5 :=
  ⟨rfl, by norm_num⟩

/-- C5 (amended): the admission checks against the configured maxima are
performed by `BroadcastTxCommit`, which fails with a distinguishable error
before any bus registration; `Client.Subscribe` itself performs no
admission check and succeeds whenever the query parses and the bus accepts,
regardless of the subscriber counts. -/
theorem admission_checked_in_commit (env : CommitEnv) (tx : List Nat)
    (senv : SubscribeEnv) (caps : List Int) :
    (env.numClients ≥ env.maxSubscriptionClients →
      BroadcastTxCommit env tx
        = ⟨none, some (.maxSubscriptionClients env.maxSubscriptionClients),
            false, false, false⟩)
    ∧ (¬ env.numClients ≥ env.maxSubscriptionClients →
      env.numClientSubscriptions ≥ env.maxSubscriptionsPerClient →
      BroadcastTxCommit env tx
        = ⟨none, some (.maxSubscriptionsPerClient env.maxSubscriptionsPerClient),
            false, false, false⟩)
    ∧ (senv.parseErr = none → senv.busSubscribeErr = none →
      ClientSubscribe senv caps
        = ⟨true, none, true, match caps with | [] => 1 | c :: _ => c⟩) := by
  refine ⟨?_, ?_, ?_⟩
  · intro h
    unfold BroadcastTxCommit
    rw [if_pos h]
  · intro h1 h2
    unfold BroadcastTxCommit
    rw [if_neg h1, if_pos h2]
  · intro hp hb
    unfold ClientSubscribe
    rw [hp]
    dsimp only
    rw [hb]

/-- C5 witness: at subscriber count 7 ≥ maximum 7, `BroadcastTxCommit` fails
before registering; at per-subscriber count 9 ≥ maximum 5 likewise; and
`Client.Subscribe` succeeds at those same counts. -/
theorem admission_checked_in_commit_witness :
    BroadcastTxCommit ⟨7, 0, 7, 5, none, none, ⟨0, [], "", ""⟩, none, .timeout⟩ []
      = ⟨none, some (.maxSubscriptionClients 7), false, false, false⟩
    ∧ BroadcastTxCommit ⟨0, 9, 7, 5, none, none, ⟨0, [], "", ""⟩, none, .timeout⟩ []
      = ⟨none, some (.maxSubscriptionsPerClient 5), false, false, false⟩
    ∧ ClientSubscribe ⟨7, 9, 7, 5, none, none⟩ [] = ⟨true, none, true, 1⟩ :=
  ⟨(admission_checked_in_commit
      ⟨7, 0, 7, 5, none, none, ⟨0, [], "", ""⟩, none, .timeout⟩ []
      ⟨7, 9, 7, 5, none, none⟩ []).1 (by norm_num),
   (admission_checked_in_commit
      ⟨0, 9, 7, 5, none, none, ⟨0, [], "", ""⟩, none, .timeout⟩ []
      ⟨7, 9, 7, 5, none, none⟩ []).2.1 (by norm_num) (by norm_num),
   (admission_checked_in_commit
      ⟨7, 0, 7, 5, none, none, ⟨0, [], "", ""⟩, none, .timeout⟩ []
      ⟨7, 9, 7, 5, none, none⟩ []).2.2 rfl rfl⟩

/-- C2: the delays the resubscription loop actually sleeps are 20, 40, 80,
… milliseconds — `attempts` is incremented before the shift, so the sleep
after the k-th failed attempt is 10·2^k ms, not the 10·2^(k−1) ms the
claim (and the source's own `10ms -> 20ms -> 40ms` comment) states. -/
theorem resubscribe_backoff_delays :
    resubscribeSleeps 0 [false, false, false] = [20, 40, 80]
    ∧ resubscribeSleepMs 1 = 20
    ∧ resubscribeSleepMs 1 ≠ 10 := by decide

/-- C4: `GetClient` on an unregistered name calls the `nil` function value a
missing Go map entry yields and panics (modelled as `none`) — no explicit
not-found error is ever returned; registered names yield instances. -/
theorem getClient_unregistered_panics :
    GetClient "celestia" = none
    ∧ GetClient "mock" = some ⟨"mock"⟩
    ∧ GetClient "grpc" = some ⟨"grpc"⟩ :=
  ⟨rfl, rfl, rfl⟩

end Optimint
